import Mathlib

/-
Shallow embedding of the MEXT capacitor test-stand firmware
(`Core/Src/main.c` of the STM32 full-bridge controller).

Machine integers are modelled as `Nat` with explicit `% 2^w` where the C
code truncates (uint8 / uint16 casts); hardware timers are modelled as a
record of the registers the code touches (armed, pending update flag,
counter, auto-reload); the four bridge GPIO outputs are a record of four
booleans.
-/

namespace MEXT

/-- run_state_t from main.c: ST_IDLE = 0, ST_RUN = 1. -/
inductive run_state_t where
  | ST_IDLE
  | ST_RUN
deriving DecidableEq, Repr

/-- exit_mode_t from main.c: EXIT_NONE = 0, EXIT_SOFT, EXIT_HARD. -/
inductive exit_mode_t where
  | EXIT_NONE
  | EXIT_SOFT
  | EXIT_HARD
deriving DecidableEq, Repr

open run_state_t exit_mode_t

/-- Registers of one hardware timer the code manipulates:
`armed` (HAL_TIM_Base_Start_IT / Stop / Stop_IT), `pending`
(TIM_FLAG_UPDATE, cleared by __HAL_TIM_CLEAR_FLAG), `counter` (CNT,
set by __HAL_TIM_SET_COUNTER) and `arr` (auto-reload register, set by
__HAL_TIM_SET_AUTORELOAD). -/
structure TimerState where
  armed : Bool
  pending : Bool
  counter : Nat
  arr : Nat
deriving DecidableEq, Repr

/-- tcfg_t from main.c: last-applied period value and flags per timer. -/
structure tcfg_t where
  value : Nat
  flags : Nat
deriving DecidableEq, Repr

/-- The four binary bridge outputs (Drive_Left, Enable_Left, Drive_Right,
Enable_Right GPIO pins). -/
structure Bridge where
  drive_left : Bool
  enable_left : Bool
  drive_right : Bool
  enable_right : Bool
deriving DecidableEq, Repr

/-- Global state of the firmware: sequencer globals g_state / g_t1_cnt /
g_exit, the pulse counters, both timers, both configuration entries
(Tcfg[0] = TIM1, Tcfg[1] = TIM2) and the bridge outputs. -/
structure Sys where
  g_state : run_state_t
  g_t1_cnt : Nat
  g_exit : exit_mode_t
  pulse_count : Nat
  soll_pulse_count : Nat
  tim1 : TimerState
  tim2 : TimerState
  tcfg1 : tcfg_t
  tcfg2 : tcfg_t
  bridge : Bridge
deriving DecidableEq, Repr

/-- positive_pulse_actions: left high side, right low side active. -/
def positive_pulse_bridge : Bridge :=
  { drive_left := true, enable_left := true, drive_right := false, enable_right := true }

/-- negative_pulse_actions: mirrored configuration. -/
def negative_pulse_bridge : Bridge :=
  { drive_left := false, enable_left := true, drive_right := true, enable_right := true }

/-- all_off: every bridge output de-energized. -/
def all_off_bridge : Bridge :=
  { drive_left := false, enable_left := false, drive_right := false, enable_right := false }

/-- tim_by_id: timer id 2 addresses htim2, every other id htim1;
apply the given register update to the addressed timer. -/
def setTim (timer : Nat) (f : TimerState → TimerState) (s : Sys) : Sys :=
  if timer = 2 then { s with tim2 := f s.tim2 } else { s with tim1 := f s.tim1 }

/-- Tcfg[timer-1]: index 0 for timer 1, index 1 for timer 2;
apply the given configuration update to the addressed entry. -/
def setTcfg (timer : Nat) (f : tcfg_t → tcfg_t) (s : Sys) : Sys :=
  if timer = 1 then { s with tcfg1 := f s.tcfg1 } else { s with tcfg2 := f s.tcfg2 }

/-- The observable actions apply_set performs, in program order. -/
inductive SetEvent where
  | stopTimer (t : Nat)
  | clearFlag (t : Nat)
  | setAutoreload (t : Nat) (v : Nat)
  | setCounter (t : Nat) (v : Nat)
  | recordValue (t : Nat) (v : Nat)
  | recordFlags (t : Nat) (f : Nat)
deriving DecidableEq, Repr

/-- Timer bounds from main.c. -/
def T1_US_MIN : Nat := 10
def T1_US_MAX : Nat := 1000
def T2_MS_MIN : Nat := 1
def T2_MS_MAX : Nat := 10000

/-- apply_set from main.c, instrumented with its event trace. The C body:
stop the timer, clear TIM_FLAG_UPDATE, then in the timer-1 branch clamp
the microsecond value to [10,1000], compute ticks = (us+5)/10 with a
floor of 1, and store Tcfg.value = (uint16_t)us; in the other branch
clamp the millisecond value to [1,10000], compute ticks = ms*10 bounded
to [5,100000], and store Tcfg.value = (uint16_t)ms; after the branch set
the auto-reload register to ticks-1, reset the counter to 0, and finally
store Tcfg.flags. -/
def apply_setE (timer period_field flags : Nat) (s : Sys) : Sys × List SetEvent :=
  let s := setTim timer (fun t => { t with armed := false }) s
  let s := setTim timer (fun t => { t with pending := false }) s
  if timer = 1 then
    let us := period_field
    let us := if us < T1_US_MIN then T1_US_MIN else us
    let us := if us > T1_US_MAX then T1_US_MAX else us
    let ticks := (us + 5) / 10
    let ticks := if ticks = 0 then 1 else ticks
    let s := setTcfg timer (fun c => { c with value := us % 65536 }) s
    let s := setTim timer (fun t => { t with arr := ticks - 1 }) s
    let s := setTim timer (fun t => { t with counter := 0 }) s
    let s := setTcfg timer (fun c => { c with flags := flags % 256 }) s
    (s, [SetEvent.stopTimer timer, SetEvent.clearFlag timer,
         SetEvent.recordValue timer (us % 65536),
         SetEvent.setAutoreload timer (ticks - 1), SetEvent.setCounter timer 0,
         SetEvent.recordFlags timer (flags % 256)])
  else
    let ms := period_field
    let ms := if ms < T2_MS_MIN then T2_MS_MIN else ms
    let ms := if ms > T2_MS_MAX then T2_MS_MAX else ms
    let ticks := ms * 10
    let ticks := if ticks < 5 then 5 else ticks
    let ticks := if ticks > 100000 then 100000 else ticks
    let s := setTcfg timer (fun c => { c with value := ms % 65536 }) s
    let s := setTim timer (fun t => { t with arr := ticks - 1 }) s
    let s := setTim timer (fun t => { t with counter := 0 }) s
    let s := setTcfg timer (fun c => { c with flags := flags % 256 }) s
    (s, [SetEvent.stopTimer timer, SetEvent.clearFlag timer,
         SetEvent.recordValue timer (ms % 65536),
         SetEvent.setAutoreload timer (ticks - 1), SetEvent.setCounter timer 0,
         SetEvent.recordFlags timer (flags % 256)])

/-- apply_set: the state effect of the C function. -/
def apply_set (timer period_field flags : Nat) (s : Sys) : Sys :=
  (apply_setE timer period_field flags s).1

/-- apply_setTrace: the event trace of one apply_set call. -/
def apply_setTrace (timer period_field flags : Nat) (s : Sys) : List SetEvent :=
  (apply_setE timer period_field flags s).2

/-- seq_start from main.c: no-op unless idle; otherwise clear the exit
request, reset the phase, reset both timer counters, clear both update
flags, arm both timers and enter ST_RUN. -/
def seq_start (s : Sys) : Sys :=
  if s.g_state ≠ ST_IDLE then s
  else
    { s with
      g_exit := EXIT_NONE
      g_t1_cnt := 0
      tim1 := { s.tim1 with counter := 0, pending := false, armed := true }
      tim2 := { s.tim2 with counter := 0, pending := false, armed := true }
      g_state := ST_RUN }

/-- seq_request_soft_stop from main.c: unconditionally record a soft
exit request. -/
def seq_request_soft_stop (s : Sys) : Sys :=
  { s with g_exit := EXIT_SOFT }

/-- seq_hard_stop from main.c: stop both timers, clear both update flags,
switch all bridge outputs off, go idle, reset phase and exit request. -/
def seq_hard_stop (s : Sys) : Sys :=
  { s with
    tim1 := { s.tim1 with armed := false, pending := false }
    tim2 := { s.tim2 with armed := false, pending := false }
    bridge := all_off_bridge
    g_state := ST_IDLE
    g_t1_cnt := 0
    g_exit := EXIT_NONE }

/-- HAL_TIM_PeriodElapsedCallback from main.c for timer instance 1 (TIM1,
fast events) and 2 (TIM2, cycle end). TIM1: no-op unless running, then
switch on g_t1_cnt: 0 drives the positive pulse and advances to 1;
1 drives the negative pulse and advances to 2; 2 switches all outputs
off, stops TIM1 and clears its update flag (the C case 2 falls through
into the empty default); any higher count hits only the default and does
nothing. TIM2: no-op unless running; on a pending EXIT_SOFT stop TIM2,
clear its flag, go idle, reset phase and clear the exit request;
otherwise reset the phase, increment pulse_count (uint8), reset TIM1 and
re-arm it for the next cycle. -/
def HAL_TIM_PeriodElapsedCallback (inst : Nat) (s : Sys) : Sys :=
  if inst = 1 then
    if s.g_state ≠ ST_RUN then s
    else
      match s.g_t1_cnt with
      | 0 => { s with bridge := positive_pulse_bridge, g_t1_cnt := 1 }
      | 1 => { s with bridge := negative_pulse_bridge, g_t1_cnt := 2 }
      | 2 =>
        { s with
          bridge := all_off_bridge
          tim1 := { s.tim1 with armed := false, pending := false } }
      | _ + 3 => s
  else if inst = 2 then
    if s.g_state ≠ ST_RUN then s
    else if s.g_exit = EXIT_SOFT then
      { s with
        tim2 := { s.tim2 with armed := false, pending := false }
        g_state := ST_IDLE
        g_t1_cnt := 0
        g_exit := EXIT_NONE }
    else
      { s with
        g_t1_cnt := 0
        pulse_count := (s.pulse_count + 1) % 256
        tim1 := { s.tim1 with counter := 0, pending := false, armed := true } }
  else s

/-- One decoded command frame (bytes 1..4; byte 0 is the preamble already
checked by the receive callback). -/
structure Frame where
  b1 : Nat
  b2 : Nat
  b3 : Nat
  b4 : Nat
deriving DecidableEq, Repr

/-- The command dispatch of the main loop: cmd = rx_buf[1], base = upper
nibble, timer = 2 when the low bit is set else 1, value = little-endian
16-bit from bytes 2 and 3, flags = byte 4. SET applies the configuration;
START stores the 16-bit value into the 8-bit soll_pulse_count (C
truncation) and calls seq_start; STOP performs seq_hard_stop when a hard
exit is already latched and otherwise requests a soft stop; READBACK
transmits the stored configuration and mutates nothing; unknown commands
are only reported. -/
def process_command (f : Frame) (s : Sys) : Sys :=
  let cmd := f.b1 % 256
  let base := cmd / 16 * 16
  let timer := if cmd % 2 = 1 then 2 else 1
  let value := f.b2 % 256 + (f.b3 % 256) * 256
  let flags := f.b4 % 256
  if base = 0x10 then apply_set timer value flags s
  else if base = 0x20 then seq_start { s with soll_pulse_count := value % 256 }
  else if base = 0x30 then
    if s.g_exit = EXIT_HARD then seq_hard_stop s else seq_request_soft_stop s
  else if base = 0x40 then s
  else s

/-- Reset state of the firmware: all sequencer globals zero (ST_IDLE,
EXIT_NONE), soll_pulse_count initialized to 10, both timers disarmed with
the .ioc auto-reload values (TIM1 Period = 0, TIM2 Period = 4294967295),
Tcfg zero-initialized, all bridge outputs reset low by GPIO init. -/
def init_sys : Sys :=
  { g_state := ST_IDLE
    g_t1_cnt := 0
    g_exit := EXIT_NONE
    pulse_count := 0
    soll_pulse_count := 10
    tim1 := { armed := false, pending := false, counter := 0, arr := 0 }
    tim2 := { armed := false, pending := false, counter := 0, arr := 4294967295 }
    tcfg1 := { value := 0, flags := 0 }
    tcfg2 := { value := 0, flags := 0 }
    bridge := all_off_bridge }

/-- An externally visible event: a received command frame or an expiry of
one of the two timers. -/
inductive Ev where
  | cmd (f : Frame)
  | tim1Expiry
  | tim2Expiry
deriving DecidableEq, Repr

/-- One step of the firmware on one event. -/
def step (s : Sys) (e : Ev) : Sys :=
  match e with
  | Ev.cmd f => process_command f s
  | Ev.tim1Expiry => HAL_TIM_PeriodElapsedCallback 1 s
  | Ev.tim2Expiry => HAL_TIM_PeriodElapsedCallback 2 s

/-- States reachable from reset by any sequence of commands and timer
expiries. -/
inductive Reachable : Sys → Prop where
  | init : Reachable init_sys
  | next : ∀ {s : Sys} (e : Ev), Reachable s → Reachable (step s e)

/-- Recognizer for the timer-stop event of an apply_set trace. -/
def isStopEv : SetEvent → Bool
  | SetEvent.stopTimer _ => true
  | _ => false

/-- Recognizer for the flag-clear event of an apply_set trace. -/
def isClearEv : SetEvent → Bool
  | SetEvent.clearFlag _ => true
  | _ => false

/-- Recognizer for the auto-reload programming event of an apply_set trace. -/
def isArrEv : SetEvent → Bool
  | SetEvent.setAutoreload _ _ => true
  | _ => false

/-- Recognizer for the counter-reset event of an apply_set trace. -/
def isCounterEv : SetEvent → Bool
  | SetEvent.setCounter _ _ => true
  | _ => false

/-- Recognizer for the configured-value recording event of an apply_set trace. -/
def isValueEv : SetEvent → Bool
  | SetEvent.recordValue _ _ => true
  | _ => false

/-- Recognizer for the flags recording event of an apply_set trace. -/
def isFlagsEv : SetEvent → Bool
  | SetEvent.recordFlags _ _ => true
  | _ => false

/-- The ordering of apply_set steps asserted by the specification: first
stop the timer, then clear the pending expiry, then program the period,
then reset the count, and only after all of these record configured_value
and flags. Stated over the event trace by comparing first-occurrence
indices. -/
def specClaimedSetOrder (tr : List SetEvent) : Prop :=
  tr.findIdx isStopEv < tr.findIdx isClearEv
  ∧ tr.findIdx isClearEv < tr.findIdx isArrEv
  ∧ tr.findIdx isArrEv < tr.findIdx isCounterEv
  ∧ tr.findIdx isCounterEv < tr.findIdx isValueEv
  ∧ tr.findIdx isCounterEv < tr.findIdx isFlagsEv

/-- The ordering of apply_set steps actually performed by the C code:
stop, clear pending expiry, record configured_value, program the period,
reset the count, record flags. -/
def actualSetOrder (tr : List SetEvent) : Prop :=
  tr.findIdx isStopEv < tr.findIdx isClearEv
  ∧ tr.findIdx isClearEv < tr.findIdx isValueEv
  ∧ tr.findIdx isValueEv < tr.findIdx isArrEv
  ∧ tr.findIdx isArrEv < tr.findIdx isCounterEv
  ∧ tr.findIdx isCounterEv < tr.findIdx isFlagsEv

/-- A running state: the result of a START from reset. -/
def run_sys : Sys := seq_start init_sys

/-- A running state with a pending soft-stop request. -/
def soft_sys : Sys := seq_request_soft_stop run_sys

end MEXT

namespace MEXT

open run_state_t exit_mode_t

lemma seq_start_soll (s : Sys) :
    (seq_start s).soll_pulse_count = s.soll_pulse_count := by
  unfold seq_start
  split <;> rfl

lemma setTim_g_exit (t : Nat) (f : TimerState → TimerState) (s : Sys) :
    (setTim t f s).g_exit = s.g_exit := by
  unfold setTim
  split <;> rfl

lemma setTcfg_g_exit (t : Nat) (f : tcfg_t → tcfg_t) (s : Sys) :
    (setTcfg t f s).g_exit = s.g_exit := by
  unfold setTcfg
  split <;> rfl

lemma apply_set_g_exit (t v fl : Nat) (s : Sys) :
    (apply_set t v fl s).g_exit = s.g_exit := by
  unfold apply_set apply_setE
  by_cases h : t = 1 <;>
    simp [h, setTim_g_exit, setTcfg_g_exit]

/-- C1. For every Fast-channel SET with value v the stored
configured_value equals v clamped to [10,1000] (hence equals v exactly
for v in range, 10 for v below and 1000 for v above), and the programmed
tick count (auto-reload register plus one) equals the clamped value plus
5 divided by 10, with a floor of one tick. -/
theorem fast_set_value_and_ticks (s : Sys) (v f : Nat) :
    (apply_set 1 v f s).tcfg1.value = min 1000 (max 10 v)
    ∧ (apply_set 1 v f s).tim1.arr + 1 = max 1 ((min 1000 (max 10 v) + 5) / 10) := by
  unfold apply_set apply_setE setTim setTcfg T1_US_MIN T1_US_MAX
  constructor <;> simp [Nat.min_def, Nat.max_def] <;> split_ifs <;>
    first
    | contradiction
    | omega

/-- C2. For every Slow-channel SET with value v the stored
configured_value equals v clamped to [1,10000], and the programmed tick
count (auto-reload register plus one) equals ten times the clamped value,
bounded below by 5 ticks and above by 100000 ticks. -/
theorem slow_set_value_and_ticks (s : Sys) (v f : Nat) :
    (apply_set 2 v f s).tcfg2.value = min 10000 (max 1 v)
    ∧ (apply_set 2 v f s).tim2.arr + 1 = min 100000 (max 5 (min 10000 (max 1 v) * 10)) := by
  unfold apply_set apply_setE setTim setTcfg T2_MS_MIN T2_MS_MAX
  constructor <;> simp [Nat.min_def, Nat.max_def] <;> split_ifs <;>
    first
    | contradiction
    | omega

/-- C3 (counterexample). The specified ordering of apply_set steps — stop,
clear, program period, reset count, and only then record configured_value
and flags — does not hold of the code: on the call apply_set(1, 500, 0)
the configured_value is recorded before the period is programmed. -/
theorem apply_set_order_counterexample :
    ¬ specClaimedSetOrder (apply_setTrace 1 500 0 init_sys) := by
  unfold specClaimedSetOrder
  decide

/-- C3 (amended). apply_set performs its steps in this order for every
call on either timer: stop the addressed timer, clear its pending expiry
indication, record configured_value into the Configuration Store, program
the new period, reset the count to zero, and finally record flags —
configured_value is recorded after the stop and flag-clear but before the
period is programmed, not after. -/
theorem apply_set_actual_order (timer v f : Nat) (s : Sys) :
    actualSetOrder (apply_setTrace timer v f s) := by
  unfold apply_setTrace apply_setE actualSetOrder
  by_cases h : timer = 1 <;>
    simp [h, List.findIdx, List.findIdx.go, isStopEv, isClearEv, isValueEv,
      isArrEv, isCounterEv, isFlagsEv]

end MEXT

namespace MEXT

open run_state_t exit_mode_t

/-- C4 (counterexample). seq_request_soft_stop is not gated on the run
state: called in the reset state, which is Idle with exit_request = None,
it changes exit_request. -/
theorem soft_stop_while_idle_counterexample :
    init_sys.g_state = ST_IDLE
    ∧ (seq_request_soft_stop init_sys).g_exit ≠ init_sys.g_exit := by
  exact ⟨rfl, by decide⟩

/-- C4 (amended). seq_request_soft_stop records exit_request = SoftStop
unconditionally, in every state including Idle; it never immediately
changes state, phase, either timer, or the bridge outputs. -/
theorem soft_stop_unconditional_record (s : Sys) :
    (seq_request_soft_stop s).g_exit = EXIT_SOFT
    ∧ (seq_request_soft_stop s).g_state = s.g_state
    ∧ (seq_request_soft_stop s).g_t1_cnt = s.g_t1_cnt
    ∧ (seq_request_soft_stop s).tim1 = s.tim1
    ∧ (seq_request_soft_stop s).tim2 = s.tim2
    ∧ (seq_request_soft_stop s).bridge = s.bridge :=
  ⟨rfl, rfl, rfl, rfl, rfl, rfl⟩

/-- C5. seq_start invoked while the sequencer is Running is a no-op on
the whole state: phase, exit_request and both timers are unchanged. -/
theorem start_while_running_noop (s : Sys) (h : s.g_state = ST_RUN) :
    seq_start s = s := by
  unfold seq_start
  simp [h]

/-- Witness for C5: starting from the freshly started run, a second START
changes nothing. -/
theorem start_while_running_noop_witness :
    run_sys.g_state = ST_RUN ∧ seq_start run_sys = run_sys :=
  ⟨by decide, start_while_running_noop run_sys (by decide)⟩

lemma cb1_case0 (s : Sys) (h1 : s.g_state = ST_RUN) (h2 : s.g_t1_cnt = 0) :
    HAL_TIM_PeriodElapsedCallback 1 s
      = { s with bridge := positive_pulse_bridge, g_t1_cnt := 1 } := by
  unfold HAL_TIM_PeriodElapsedCallback
  rw [h2]
  simp [h1]

lemma cb1_case1 (s : Sys) (h1 : s.g_state = ST_RUN) (h2 : s.g_t1_cnt = 1) :
    HAL_TIM_PeriodElapsedCallback 1 s
      = { s with bridge := negative_pulse_bridge, g_t1_cnt := 2 } := by
  unfold HAL_TIM_PeriodElapsedCallback
  rw [h2]
  simp [h1]

lemma cb1_case2 (s : Sys) (h1 : s.g_state = ST_RUN) (h2 : s.g_t1_cnt = 2) :
    HAL_TIM_PeriodElapsedCallback 1 s
      = { s with bridge := all_off_bridge, tim1 := { s.tim1 with armed := false, pending := false } } := by
  unfold HAL_TIM_PeriodElapsedCallback
  rw [h2]
  simp [h1]

/-- C6. From a freshly started run (Running, phase 0) the successive
Fast-timer expiries produce exactly: positive-pulse configuration with
phase 1, then negative-pulse configuration with phase 2, then all outputs
off with the Fast timer stopped and the phase still 2, and a fourth
expiry leaves the state (in particular the bridge outputs) unchanged. -/
theorem fast_expiry_phase_sequence (s : Sys) (h1 : s.g_state = ST_RUN) (h2 : s.g_t1_cnt = 0) :
    HAL_TIM_PeriodElapsedCallback 1 s
      = { s with bridge := positive_pulse_bridge, g_t1_cnt := 1 }
    ∧ HAL_TIM_PeriodElapsedCallback 1 (HAL_TIM_PeriodElapsedCallback 1 s)
      = { s with bridge := negative_pulse_bridge, g_t1_cnt := 2 }
    ∧ HAL_TIM_PeriodElapsedCallback 1 (HAL_TIM_PeriodElapsedCallback 1 (HAL_TIM_PeriodElapsedCallback 1 s))
      = { s with bridge := all_off_bridge, g_t1_cnt := 2, tim1 := { s.tim1 with armed := false, pending := false } }
    ∧ HAL_TIM_PeriodElapsedCallback 1 (HAL_TIM_PeriodElapsedCallback 1 (HAL_TIM_PeriodElapsedCallback 1 (HAL_TIM_PeriodElapsedCallback 1 s)))
      = { s with bridge := all_off_bridge, g_t1_cnt := 2, tim1 := { s.tim1 with armed := false, pending := false } } := by
  have e1 := cb1_case0 s h1 h2
  have e2 := cb1_case1 { s with bridge := positive_pulse_bridge, g_t1_cnt := 1 } h1 rfl
  have e3 := cb1_case2 { s with bridge := negative_pulse_bridge, g_t1_cnt := 2 } h1 rfl
  have e4 := cb1_case2 { s with bridge := all_off_bridge, g_t1_cnt := 2, tim1 := { s.tim1 with armed := false, pending := false } } h1 rfl
  refine ⟨e1, ?_, ?_, ?_⟩
  · rw [e1]
    exact e2
  · rw [e1]
    rw [show HAL_TIM_PeriodElapsedCallback 1 { s with bridge := positive_pulse_bridge, g_t1_cnt := 1 } = { s with bridge := negative_pulse_bridge, g_t1_cnt := 2 } from e2]
    exact e3
  · rw [e1]
    rw [show HAL_TIM_PeriodElapsedCallback 1 { s with bridge := positive_pulse_bridge, g_t1_cnt := 1 } = { s with bridge := negative_pulse_bridge, g_t1_cnt := 2 } from e2]
    rw [show HAL_TIM_PeriodElapsedCallback 1 { s with bridge := negative_pulse_bridge, g_t1_cnt := 2 } = { s with bridge := all_off_bridge, g_t1_cnt := 2, tim1 := { s.tim1 with armed := false, pending := false } } from e3]
    exact e4

end MEXT

namespace MEXT

open run_state_t exit_mode_t

/-- Witness for C6: the phase sequence evaluated on the concrete state
reached by START from reset. -/
theorem fast_expiry_phase_sequence_witness :
    run_sys.g_state = ST_RUN ∧ run_sys.g_t1_cnt = 0
    ∧ (HAL_TIM_PeriodElapsedCallback 1 run_sys
        = { run_sys with bridge := positive_pulse_bridge, g_t1_cnt := 1 }
      ∧ HAL_TIM_PeriodElapsedCallback 1 (HAL_TIM_PeriodElapsedCallback 1 run_sys)
        = { run_sys with bridge := negative_pulse_bridge, g_t1_cnt := 2 }
      ∧ HAL_TIM_PeriodElapsedCallback 1 (HAL_TIM_PeriodElapsedCallback 1 (HAL_TIM_PeriodElapsedCallback 1 run_sys))
        = { run_sys with bridge := all_off_bridge, g_t1_cnt := 2, tim1 := { run_sys.tim1 with armed := false, pending := false } }
      ∧ HAL_TIM_PeriodElapsedCallback 1 (HAL_TIM_PeriodElapsedCallback 1 (HAL_TIM_PeriodElapsedCallback 1 (HAL_TIM_PeriodElapsedCallback 1 run_sys)))
        = { run_sys with bridge := all_off_bridge, g_t1_cnt := 2, tim1 := { run_sys.tim1 with armed := false, pending := false } }) :=
  ⟨by decide, by decide, fast_expiry_phase_sequence run_sys (by decide) (by decide)⟩

lemma cb2_soft (s : Sys) (h1 : s.g_state = ST_RUN) (h2 : s.g_exit = EXIT_SOFT) :
    HAL_TIM_PeriodElapsedCallback 2 s
      = { s with tim2 := { s.tim2 with armed := false, pending := false }, g_state := ST_IDLE, g_t1_cnt := 0, g_exit := EXIT_NONE } := by
  unfold HAL_TIM_PeriodElapsedCallback
  simp [h1, h2]

lemma cb2_continue (s : Sys) (h1 : s.g_state = ST_RUN) (h2 : s.g_exit ≠ EXIT_SOFT) :
    HAL_TIM_PeriodElapsedCallback 2 s
      = { s with g_t1_cnt := 0, pulse_count := (s.pulse_count + 1) % 256, tim1 := { s.tim1 with counter := 0, pending := false, armed := true } } := by
  unfold HAL_TIM_PeriodElapsedCallback
  simp [h1, h2]

lemma cb2_idle (s : Sys) (h : s.g_state = ST_IDLE) :
    HAL_TIM_PeriodElapsedCallback 2 s = s := by
  unfold HAL_TIM_PeriodElapsedCallback
  simp [h]

/-- C7. On a Slow-timer expiry: while Running with a pending SoftStop the
machine stops the Slow timer and goes Idle with phase 0 and exit_request
None; while Running without a pending SoftStop it resets the phase,
increments the (8-bit) pulse counter and re-arms the Fast timer; while
Idle nothing changes. -/
theorem slow_expiry_behavior (s : Sys) :
    (s.g_state = ST_RUN → s.g_exit = EXIT_SOFT →
      HAL_TIM_PeriodElapsedCallback 2 s
        = { s with tim2 := { s.tim2 with armed := false, pending := false }, g_state := ST_IDLE, g_t1_cnt := 0, g_exit := EXIT_NONE })
    ∧ (s.g_state = ST_RUN → s.g_exit ≠ EXIT_SOFT →
      HAL_TIM_PeriodElapsedCallback 2 s
        = { s with g_t1_cnt := 0, pulse_count := (s.pulse_count + 1) % 256, tim1 := { s.tim1 with counter := 0, pending := false, armed := true } })
    ∧ (s.g_state = ST_IDLE → HAL_TIM_PeriodElapsedCallback 2 s = s) :=
  ⟨cb2_soft s, cb2_continue s, cb2_idle s⟩

/-- Witness for C7: the three cases evaluated on concrete states — a run
with a soft stop requested, a plain run, and the idle reset state. -/
theorem slow_expiry_behavior_witness :
    (soft_sys.g_state = ST_RUN ∧ soft_sys.g_exit = EXIT_SOFT
      ∧ HAL_TIM_PeriodElapsedCallback 2 soft_sys
        = { soft_sys with tim2 := { soft_sys.tim2 with armed := false, pending := false }, g_state := ST_IDLE, g_t1_cnt := 0, g_exit := EXIT_NONE })
    ∧ (run_sys.g_state = ST_RUN ∧ run_sys.g_exit ≠ EXIT_SOFT
      ∧ HAL_TIM_PeriodElapsedCallback 2 run_sys
        = { run_sys with g_t1_cnt := 0, pulse_count := (run_sys.pulse_count + 1) % 256, tim1 := { run_sys.tim1 with counter := 0, pending := false, armed := true } })
    ∧ (init_sys.g_state = ST_IDLE ∧ HAL_TIM_PeriodElapsedCallback 2 init_sys = init_sys) :=
  ⟨⟨by decide, by decide, (slow_expiry_behavior soft_sys).1 (by decide) (by decide)⟩,
   ⟨by decide, by decide, (slow_expiry_behavior run_sys).2.1 (by decide) (by decide)⟩,
   ⟨by decide, (slow_expiry_behavior init_sys).2.2 (by decide)⟩⟩

/-- C8. seq_hard_stop from every starting state yields Idle with phase 0
and exit_request None, both timers stopped with pending expiry cleared,
and all four bridge outputs off. -/
theorem hard_stop_resets_all (s : Sys) :
    (seq_hard_stop s).g_state = ST_IDLE
    ∧ (seq_hard_stop s).g_t1_cnt = 0
    ∧ (seq_hard_stop s).g_exit = EXIT_NONE
    ∧ (seq_hard_stop s).tim1.armed = false
    ∧ (seq_hard_stop s).tim1.pending = false
    ∧ (seq_hard_stop s).tim2.armed = false
    ∧ (seq_hard_stop s).tim2.pending = false
    ∧ (seq_hard_stop s).bridge = all_off_bridge :=
  ⟨rfl, rfl, rfl, rfl, rfl, rfl, rfl, rfl⟩

end MEXT


namespace MEXT

open run_state_t exit_mode_t

lemma seq_start_not_hard (s : Sys) (h : s.g_exit ≠ EXIT_HARD) :
    (seq_start s).g_exit ≠ EXIT_HARD := by
  unfold seq_start
  split
  · exact h
  · simp

lemma cb1_g_exit (s : Sys) :
    (HAL_TIM_PeriodElapsedCallback 1 s).g_exit = s.g_exit := by
  unfold HAL_TIM_PeriodElapsedCallback
  norm_num
  split
  all_goals first
    | rfl
    | (split <;> rfl)

lemma cb2_not_hard (s : Sys) (h : s.g_exit ≠ EXIT_HARD) :
    (HAL_TIM_PeriodElapsedCallback 2 s).g_exit ≠ EXIT_HARD := by
  unfold HAL_TIM_PeriodElapsedCallback
  norm_num
  split
  · split
    · simp
    · exact h
  · exact h

lemma step_not_hard (s : Sys) (e : Ev) (h : s.g_exit ≠ EXIT_HARD) :
    (step s e).g_exit ≠ EXIT_HARD := by
  cases e with
  | cmd f =>
    simp only [step, process_command]
    split_ifs
    all_goals try (rw [apply_set_g_exit]; exact h)
    all_goals try exact h
    all_goals try exact seq_start_not_hard _ h
    all_goals simp [seq_request_soft_stop, seq_hard_stop]
  | tim1Expiry =>
    simp only [step]
    rw [cb1_g_exit]
    exact h
  | tim2Expiry =>
    simp only [step]
    exact cb2_not_hard s h

/-- C9. In every state reachable from reset by any sequence of commands
and timer expiries, exit_request is never EXIT_HARD: no operation assigns
it, so the hard-stop branch of the STOP command never fires. -/
theorem exit_request_never_hard (s : Sys) (h : Reachable s) :
    s.g_exit ≠ EXIT_HARD := by
  induction h with
  | init => decide
  | next e hr ih => exact step_not_hard _ e ih

/-- Witness for C9: the invariant evaluated at the reset state. -/
theorem exit_request_never_hard_witness :
    Reachable init_sys ∧ init_sys.g_exit ≠ EXIT_HARD :=
  ⟨Reachable.init, exit_request_never_hard init_sys Reachable.init⟩

/-- C10. A START command carrying 16-bit value v latches only the low
byte: the stored soll_pulse_count equals v % 256 (the target variable is
8 bits wide), and for the commanded value 300 (bytes 44, 1) the stored
target differs from the commanded value. -/
theorem start_latches_low_byte (s : Sys) (b4 v : Nat) (hv : v < 65536) :
    (process_command { b1 := 0x20, b2 := v % 256, b3 := v / 256, b4 := b4 } s).soll_pulse_count = v % 256
    ∧ (process_command { b1 := 0x20, b2 := 44, b3 := 1, b4 := 0 } init_sys).soll_pulse_count ≠ 300 := by
  constructor
  · simp [process_command, seq_start_soll]
  · decide

/-- Witness for C10: the latched target for commanded value 300 is 44. -/
theorem start_latches_low_byte_witness :
    300 < 65536
    ∧ ((process_command { b1 := 0x20, b2 := 300 % 256, b3 := 300 / 256, b4 := 0 } init_sys).soll_pulse_count = 300 % 256
      ∧ (process_command { b1 := 0x20, b2 := 44, b3 := 1, b4 := 0 } init_sys).soll_pulse_count ≠ 300) :=
  ⟨by decide, start_latches_low_byte init_sys 0 300 (by decide)⟩

end MEXT
